import Mathlib

/-!
Verification of the future-fit estimation pipeline and plan-generation engine.

The source of `src/lib/plans/workoutPlans.ts` is embedded over `ℚ`
(JavaScript numbers carrying exact decimal arithmetic in all reachable
computations), and the source of `src/lib/ai/bodyFatCalculator.ts` over `ℝ`
(the formulas use base-10 logarithms).  JavaScript `Math.round` agrees with
Mathlib's `round` (half-up), `Math.max`/`Math.min` with `max`/`min`, and a
`number | undefined` field is an `Option`.  A JavaScript truthiness test on a
number (`exercise.sets ? _ : _`, `if (!hip)`) is false exactly on `0` (and
`undefined`), and is embedded that way.
-/

/-! ## Data model of `workoutPlans.ts` -/

inductive Sex where
  | male
  | female
deriving DecidableEq, Repr

inductive ActivityLevel where
  | sedentary
  | light
  | moderate
  | active
  | very_active
deriving DecidableEq, Repr

inductive WorkoutType where
  | strength
  | cardio
  | hiit
  | flexibility
deriving DecidableEq, Repr

structure Exercise where
  name : String
  sets : Option ℚ := none
  reps : Option String := none
  duration : Option ℚ := none
  rest : Option ℚ := none
  notes : Option String := none
deriving DecidableEq, Repr

structure Workout where
  name : String
  type : WorkoutType
  duration : ℚ
  exercises : List Exercise
  instructions : List String
deriving DecidableEq, Repr

structure WorkoutPlan where
  title : String
  description : String
  workouts : List Workout
  restDays : List String
  duration : ℚ
deriving DecidableEq, Repr

structure Macros where
  protein : ℤ
  carbs : ℤ
  fat : ℤ
deriving DecidableEq, Repr

structure MealPlan where
  breakfast : List String
  lunch : List String
  dinner : List String
  snacks : List String
deriving DecidableEq, Repr

structure NutritionPlan where
  title : String
  description : String
  dailyCalories : ℤ
  macros : Macros
  mealPlan : MealPlan
  guidelines : List String
deriving DecidableEq, Repr

structure UserProfile where
  height : ℚ
  weight : ℚ
  age : ℚ
  sex : Sex
  goal : String
  activityLevel : ActivityLevel
  bodyFatPercentage : Option ℚ := none
deriving DecidableEq, Repr

/-- The `goal` union type of the source; the `switch` statements treat any
other runtime string through their `default` branch. -/
inductive PlanError where
  | invalidGoal
deriving DecidableEq, Repr

instance {ε : Type u} {α : Type v} [DecidableEq ε] [DecidableEq α] :
    DecidableEq (Except ε α)
  | .ok a, .ok b => decidable_of_iff (a = b) (by simp)
  | .ok _, .error _ => isFalse (by simp)
  | .error _, .ok _ => isFalse (by simp)
  | .error e, .error f => decidable_of_iff (e = f) (by simp)

/-! ## `calculateBMR` / `calculateTDEE` -/

/-- Mifflin-St Jeor equation, from `calculateBMR`. -/
def calculateBMR (profile : UserProfile) : ℚ :=
  match profile.sex with
  | .male => 10 * profile.weight + 6.25 * profile.height - 5 * profile.age + 5
  | .female => 10 * profile.weight + 6.25 * profile.height - 5 * profile.age - 161

/-- Total daily energy expenditure, from `calculateTDEE`; the
`activityMultipliers` object literal becomes a `match`. -/
def calculateTDEE (profile : UserProfile) : ℚ :=
  calculateBMR profile *
    (match profile.activityLevel with
     | .sedentary => 1.2
     | .light => 1.375
     | .moderate => 1.55
     | .active => 1.725
     | .very_active => 1.9)

/-! ## Base workout-plan templates (`getBaseWorkoutPlan`) -/

/-- The `lose_fat` template of `getBaseWorkoutPlan`. -/
def fatLossPlan : WorkoutPlan :=
  { title := "Fat Loss Program"
    description := "High-intensity workouts focused on burning calories and preserving muscle"
    duration := 12
    restDays := ["Sunday"]
    workouts :=
      [ { name := "Full Body Strength"
          type := .strength
          duration := 45
          exercises :=
            [ { name := "Squats", sets := some 4, reps := some "12-15", rest := some 60 }
            , { name := "Push-ups", sets := some 3, reps := some "10-15", rest := some 45 }
            , { name := "Bent-over Rows", sets := some 3, reps := some "10-12", rest := some 60 }
            , { name := "Lunges", sets := some 3, reps := some "12 each leg", rest := some 45 }
            , { name := "Plank", sets := some 3, reps := some "30-60 seconds", rest := some 30 }
            , { name := "Burpees", sets := some 3, reps := some "8-12", rest := some 60 } ]
          instructions :=
            [ "Focus on compound movements"
            , "Keep rest periods short"
            , "Maintain proper form throughout" ] }
      , { name := "HIIT Cardio"
          type := .hiit
          duration := 25
          exercises :=
            [ { name := "Jumping Jacks", duration := some 30, rest := some 30 }
            , { name := "High Knees", duration := some 30, rest := some 30 }
            , { name := "Mountain Climbers", duration := some 30, rest := some 30 }
            , { name := "Burpees", duration := some 30, rest := some 30 }
            , { name := "Jump Squats", duration := some 30, rest := some 30 } ]
          instructions :=
            [ "Perform each exercise for 30 seconds"
            , "Rest for 30 seconds between exercises"
            , "Complete 4-5 rounds" ] }
      , { name := "Steady State Cardio"
          type := .cardio
          duration := 30
          exercises :=
            [ { name := "Running/Jogging", duration := some 30, notes := some "Maintain moderate pace" }
            , { name := "Cycling", duration := some 30, notes := some "Indoor or outdoor cycling" }
            , { name := "Swimming", duration := some 30, notes := some "Continuous laps" } ]
          instructions :=
            [ "Choose one cardio activity"
            , "Maintain steady pace throughout"
            , "Keep heart rate in fat-burning zone" ] } ] }

/-- The `gain_muscle` template of `getBaseWorkoutPlan`. -/
def muscleGainPlan : WorkoutPlan :=
  { title := "Muscle Building Program"
    description := "Progressive overload focused on building lean muscle mass"
    duration := 16
    restDays := ["Wednesday", "Sunday"]
    workouts :=
      [ { name := "Push Day"
          type := .strength
          duration := 60
          exercises :=
            [ { name := "Bench Press", sets := some 4, reps := some "6-8", rest := some 120 }
            , { name := "Overhead Press", sets := some 4, reps := some "6-8", rest := some 120 }
            , { name := "Incline Dumbbell Press", sets := some 3, reps := some "8-10", rest := some 90 }
            , { name := "Lateral Raises", sets := some 3, reps := some "12-15", rest := some 60 }
            , { name := "Tricep Dips", sets := some 3, reps := some "10-12", rest := some 60 }
            , { name := "Push-ups", sets := some 3, reps := some "15-20", rest := some 60 } ]
          instructions :=
            [ "Focus on progressive overload"
            , "Increase weight when you can complete all reps"
            , "Maintain strict form" ] }
      , { name := "Pull Day"
          type := .strength
          duration := 60
          exercises :=
            [ { name := "Deadlifts", sets := some 4, reps := some "5-6", rest := some 180 }
            , { name := "Pull-ups/Chin-ups", sets := some 4, reps := some "6-10", rest := some 120 }
            , { name := "Bent-over Rows", sets := some 4, reps := some "8-10", rest := some 120 }
            , { name := "Lat Pulldowns", sets := some 3, reps := some "10-12", rest := some 90 }
            , { name := "Bicep Curls", sets := some 3, reps := some "12-15", rest := some 60 }
            , { name := "Face Pulls", sets := some 3, reps := some "15-20", rest := some 60 } ]
          instructions :=
            [ "Focus on back and bicep development"
            , "Use full range of motion"
            , "Control the weight on both phases" ] }
      , { name := "Legs Day"
          type := .strength
          duration := 60
          exercises :=
            [ { name := "Squats", sets := some 4, reps := some "6-8", rest := some 180 }
            , { name := "Romanian Deadlifts", sets := some 4, reps := some "8-10", rest := some 120 }
            , { name := "Leg Press", sets := some 3, reps := some "12-15", rest := some 90 }
            , { name := "Walking Lunges", sets := some 3, reps := some "20 steps", rest := some 90 }
            , { name := "Calf Raises", sets := some 4, reps := some "15-20", rest := some 60 }
            , { name := "Leg Curls", sets := some 3, reps := some "12-15", rest := some 60 } ]
          instructions :=
            [ "Focus on compound movements"
            , "Don\x27t skip leg day!"
            , "Use proper depth on squats" ] } ] }

/-- The `maintain` template of `getBaseWorkoutPlan`. -/
def maintenancePlan : WorkoutPlan :=
  { title := "Maintenance Program"
    description := "Balanced approach to maintain current fitness level"
    duration := 8
    restDays := ["Wednesday", "Sunday"]
    workouts :=
      [ { name := "Full Body Strength"
          type := .strength
          duration := 45
          exercises :=
            [ { name := "Squats", sets := some 3, reps := some "10-12", rest := some 90 }
            , { name := "Push-ups", sets := some 3, reps := some "12-15", rest := some 60 }
            , { name := "Bent-over Rows", sets := some 3, reps := some "10-12", rest := some 90 }
            , { name := "Lunges", sets := some 3, reps := some "10 each leg", rest := some 60 }
            , { name := "Plank", sets := some 3, reps := some "45-60 seconds", rest := some 45 }
            , { name := "Shoulder Press", sets := some 3, reps := some "10-12", rest := some 60 } ]
          instructions :=
            [ "Maintain current strength levels"
            , "Focus on form and consistency"
            , "Adjust intensity as needed" ] }
      , { name := "Cardio Session"
          type := .cardio
          duration := 30
          exercises :=
            [ { name := "Running/Jogging", duration := some 30, notes := some "Moderate pace" }
            , { name := "Cycling", duration := some 30, notes := some "Steady state" }
            , { name := "Swimming", duration := some 30, notes := some "Continuous laps" } ]
          instructions :=
            [ "Choose your preferred cardio"
            , "Maintain conversational pace"
            , "Enjoy the activity" ] }
      , { name := "Flexibility & Mobility"
          type := .flexibility
          duration := 20
          exercises :=
            [ { name := "Dynamic Warm-up", duration := some 5 }
            , { name := "Static Stretching", duration := some 10 }
            , { name := "Foam Rolling", duration := some 5 } ]
          instructions :=
            [ "Focus on major muscle groups"
            , "Hold stretches for 30-60 seconds"
            , "Don\x27t bounce during stretches" ] } ] }

/-- `getBaseWorkoutPlan`: the `switch` on the goal string; its `default`
branch throws `Invalid goal specified`. -/
def getBaseWorkoutPlan (goal : String) : Except PlanError WorkoutPlan :=
  if goal = "lose_fat" then .ok fatLossPlan
  else if goal = "gain_muscle" then .ok muscleGainPlan
  else if goal = "maintain" then .ok maintenancePlan
  else .error .invalidGoal

/-! ## `customizeWorkoutPlan` / `generateWorkoutPlan` -/

/-- The per-exercise age adjustment inside `customizeWorkoutPlan`:
`sets: exercise.sets ? Math.max(2, exercise.sets - 1) : exercise.sets` and
`rest: exercise.rest ? exercise.rest + 30 : exercise.rest`.  A JavaScript
truthiness test on a number is false on `undefined` and on `0`, so a present
`0` is left unchanged. -/
def ageAdjustedExercise (e : Exercise) : Exercise :=
  { e with
    sets := match e.sets with
            | none => none
            | some s => if s = 0 then some s else some (max 2 (s - 1))
    rest := match e.rest with
            | none => none
            | some r => if r = 0 then some r else some (r + 30) }

/-- `customizeWorkoutPlan`: the age pass (`profile.age > 50`) followed by the
body-fat pass (`profile.bodyFatPercentage && profile.bodyFatPercentage > 25`,
truthiness again subsumed by `25 < b`). -/
def customizeWorkoutPlan (basePlan : WorkoutPlan) (profile : UserProfile) : WorkoutPlan :=
  let afterAge :=
    if 50 < profile.age then
      { basePlan with
        workouts := basePlan.workouts.map fun w =>
          { w with exercises := w.exercises.map ageAdjustedExercise } }
    else basePlan
  match profile.bodyFatPercentage with
  | some b =>
      if 25 < b then
        { afterAge with
          workouts := afterAge.workouts.map fun w =>
            { w with exercises := w.exercises.take 4 } }
      else afterAge
  | none => afterAge

/-- `generateWorkoutPlan`. -/
def generateWorkoutPlan (profile : UserProfile) : Except PlanError WorkoutPlan :=
  (getBaseWorkoutPlan profile.goal).map fun basePlan =>
    customizeWorkoutPlan basePlan profile

/-! ## `generateNutritionPlan` -/

/-- JavaScript `String.prototype.replace` with a string pattern replaces only
the first occurrence. -/
def replaceFirst (s pat rep : String) : String :=
  match s.splitOn pat with
  | [] => s
  | [x] => x
  | x :: y :: rest => x ++ rep ++ String.intercalate pat (y :: rest)

/-- `generateMealPlan` (its arguments are unused in the source as well). -/
def generateMealPlan (_calories : ℚ) (_macros : ℚ × ℚ × ℚ) (_goal : String) : MealPlan :=
  { breakfast :=
      [ "Oatmeal with berries and protein powder"
      , "Greek yogurt with granola and fruit"
      , "Scrambled eggs with whole grain toast"
      , "Protein smoothie with banana and spinach" ]
    lunch :=
      [ "Grilled chicken salad with quinoa"
      , "Turkey and avocado wrap"
      , "Salmon with sweet potato and vegetables"
      , "Lentil soup with whole grain bread" ]
    dinner :=
      [ "Lean beef with brown rice and broccoli"
      , "Baked fish with quinoa and roasted vegetables"
      , "Chicken stir-fry with vegetables"
      , "Turkey meatballs with whole grain pasta" ]
    snacks :=
      [ "Apple with almond butter"
      , "Greek yogurt with berries"
      , "Protein bar"
      , "Mixed nuts and dried fruit" ] }

/-- `generateNutritionGuidelines`: `switch` on the goal, `default` returns
the empty list. -/
def generateNutritionGuidelines (goal : String) : List String :=
  if goal = "lose_fat" then
    [ "Eat protein with every meal to preserve muscle mass"
    , "Focus on whole, unprocessed foods"
    , "Stay hydrated - drink at least 8 glasses of water daily"
    , "Eat plenty of vegetables for fiber and nutrients"
    , "Limit processed foods and added sugars"
    , "Consider intermittent fasting if it fits your lifestyle" ]
  else if goal = "gain_muscle" then
    [ "Eat protein within 30 minutes of workouts"
    , "Consume complex carbs before and after training"
    , "Eat frequent, smaller meals throughout the day"
    , "Include healthy fats for hormone production"
    , "Stay consistent with your eating schedule"
    , "Consider a post-workout protein shake" ]
  else if goal = "maintain" then
    [ "Eat a balanced diet with all macronutrients"
    , "Listen to your body\x27s hunger and fullness cues"
    , "Stay hydrated throughout the day"
    , "Include a variety of colorful fruits and vegetables"
    , "Moderate your intake of processed foods"
    , "Enjoy treats in moderation" ]
  else []

/-- The shared `return` expression at the end of `generateNutritionPlan`,
with `dailyCalories` and the raw macros of the chosen `switch` branch. -/
def assembleNutritionPlan (goal : String) (dailyCalories : ℚ)
    (rawMacros : ℚ × ℚ × ℚ) : NutritionPlan :=
  { title := (replaceFirst goal "_" " ").toUpper ++ " Nutrition Plan"
    description := "Personalized nutrition plan for " ++ replaceFirst goal "_" " " ++ " goals"
    dailyCalories := round dailyCalories
    macros :=
      { protein := round rawMacros.1
        carbs := round rawMacros.2.1
        fat := round rawMacros.2.2 }
    mealPlan := generateMealPlan dailyCalories rawMacros goal
    guidelines := generateNutritionGuidelines goal }

/-- `generateNutritionPlan`: the `switch` on the goal computes the calorie
target and raw macros; the `default` branch throws `Invalid goal specified`. -/
def generateNutritionPlan (profile : UserProfile) : Except PlanError NutritionPlan :=
  let tdee := calculateTDEE profile
  if profile.goal = "lose_fat" then
    let dailyCalories := tdee - 500
    .ok (assembleNutritionPlan profile.goal dailyCalories
      (profile.weight * 2.2, dailyCalories * 0.35 / 4, dailyCalories * 0.25 / 9))
  else if profile.goal = "gain_muscle" then
    let dailyCalories := tdee + 300
    .ok (assembleNutritionPlan profile.goal dailyCalories
      (profile.weight * 2.0, dailyCalories * 0.45 / 4, dailyCalories * 0.25 / 9))
  else if profile.goal = "maintain" then
    let dailyCalories := tdee
    .ok (assembleNutritionPlan profile.goal dailyCalories
      (profile.weight * 1.6, dailyCalories * 0.40 / 4, dailyCalories * 0.30 / 9))
  else .error .invalidGoal

/-! ## Data model of `bodyFatCalculator.ts` -/

structure BodyMeasurements where
  waist : ℝ
  neck : ℝ
  hip : Option ℝ := none
  height : ℝ
  weight : ℝ
  age : ℝ
  sex : Sex

/-- A normalized 2D landmark coordinate. -/
structure Point where
  x : ℝ
  y : ℝ

structure BodyLandmarks where
  leftShoulder : Point
  rightShoulder : Point
  leftHip : Point
  rightHip : Point
  leftKnee : Point
  rightKnee : Point
  leftAnkle : Point
  rightAnkle : Point
  waist : Point
  neck : Point
  hip : Option Point := none

/-- Result shape of `calculateCircumferences`. -/
structure Circumferences where
  waist : ℝ
  neck : ℝ
  hip : Option ℝ

inductive CalcError where
  | missingHip
deriving DecidableEq, Repr

/-! ## `calculateCircumferences` -/

/-- `estimatedBodyHeightPixels = Math.abs(landmarks.leftAnkle.y - landmarks.leftShoulder.y) * imageHeight`. -/
noncomputable def estimatedBodyHeightPixels (lm : BodyLandmarks) (imageHeight : ℝ) : ℝ :=
  |lm.leftAnkle.y - lm.leftShoulder.y| * imageHeight

/-- `pixelToCmRatio = userHeight / estimatedBodyHeightPixels`. -/
noncomputable def pixelToCmRatio (lm : BodyLandmarks) (userHeight imageHeight : ℝ) : ℝ :=
  userHeight / estimatedBodyHeightPixels lm imageHeight

/-- `waistCircumference = waistWidth * pixelToCmRatio * Math.PI` with
`waistWidth = Math.abs(landmarks.leftHip.x - landmarks.rightHip.x) * imageWidth`. -/
noncomputable def waistCircumference (lm : BodyLandmarks)
    (userHeight imageWidth imageHeight : ℝ) : ℝ :=
  (|lm.leftHip.x - lm.rightHip.x| * imageWidth) *
    pixelToCmRatio lm userHeight imageHeight * Real.pi

/-- `neckCircumference = neckWidth * pixelToCmRatio * Math.PI` with
`neckWidth = Math.abs(landmarks.leftShoulder.x - landmarks.rightShoulder.x) * imageWidth * 0.3`. -/
noncomputable def neckCircumference (lm : BodyLandmarks)
    (userHeight imageWidth imageHeight : ℝ) : ℝ :=
  (|lm.leftShoulder.x - lm.rightShoulder.x| * imageWidth * 0.3) *
    pixelToCmRatio lm userHeight imageHeight * Real.pi

/-- `hipCircumference = hipWidth * pixelToCmRatio * Math.PI`; `hipWidth`
reuses the hip-to-hip horizontal distance of the waist. -/
noncomputable def hipCircumference (lm : BodyLandmarks)
    (userHeight imageWidth imageHeight : ℝ) : ℝ :=
  (|lm.leftHip.x - lm.rightHip.x| * imageWidth) *
    pixelToCmRatio lm userHeight imageHeight * Real.pi

/-- `calculateCircumferences`; the `landmarks.hip` object is truthy whenever
present, and the returned waist and neck are floored by
`Math.max(_, 50)` / `Math.max(_, 25)`. -/
noncomputable def calculateCircumferences (lm : BodyLandmarks)
    (userHeight imageWidth imageHeight : ℝ) : Circumferences :=
  { waist := max (waistCircumference lm userHeight imageWidth imageHeight) 50
    neck := max (neckCircumference lm userHeight imageWidth imageHeight) 25
    hip := lm.hip.map fun _ => hipCircumference lm userHeight imageWidth imageHeight }

/-! ## `calculateBodyFatPercentage` -/

/-- The male branch value:
`Math.max(3, Math.min(50, 495 / (1.0324 - 0.19077 * log10(waist - neck) + 0.15456 * log10(height)) - 450))`. -/
noncomputable def maleBodyFat (m : BodyMeasurements) : ℝ :=
  max 3 (min 50
    (495 / (1.0324 - 0.19077 * Real.logb 10 (m.waist - m.neck)
      + 0.15456 * Real.logb 10 m.height) - 450))

/-- The female branch value at hip measurement `h`:
`Math.max(8, Math.min(50, 495 / (1.29579 - 0.35004 * log10(waist + hip - neck) + 0.22100 * log10(height)) - 450))`. -/
noncomputable def femaleBodyFat (m : BodyMeasurements) (h : ℝ) : ℝ :=
  max 8 (min 50
    (495 / (1.29579 - 0.35004 * Real.logb 10 (m.waist + h - m.neck)
      + 0.22100 * Real.logb 10 m.height) - 450))

/-- `calculateBodyFatPercentage`.  The female guard is `if (!hip)`, which
fires when `hip` is `undefined` and also when it is `0` (falsy); the source
contains no check on the sign of the logarithm argument. -/
noncomputable def calculateBodyFatPercentage (m : BodyMeasurements) :
    Except CalcError ℝ :=
  match m.sex with
  | .male => .ok (maleBodyFat m)
  | .female =>
      match m.hip with
      | none => .error .missingHip
      | some h => if h = 0 then .error .missingHip else .ok (femaleBodyFat m h)

/-! ## `mockPoseDetection` and `processBodyComposition` -/

/-- `mockPoseDetection`: a fixed landmark set, independent of the image. -/
def mockPoseDetection (_imageData : String) : BodyLandmarks :=
  { leftShoulder := ⟨0.3, 0.2⟩
    rightShoulder := ⟨0.7, 0.2⟩
    leftHip := ⟨0.35, 0.5⟩
    rightHip := ⟨0.65, 0.5⟩
    leftKnee := ⟨0.4, 0.7⟩
    rightKnee := ⟨0.6, 0.7⟩
    leftAnkle := ⟨0.4, 0.9⟩
    rightAnkle := ⟨0.6, 0.9⟩
    waist := ⟨0.5, 0.45⟩
    neck := ⟨0.5, 0.15⟩
    hip := some ⟨0.5, 0.55⟩ }

/-- The profile shape accepted by `processBodyComposition`. -/
structure PipelineProfile where
  height : ℝ
  weight : ℝ
  age : ℝ
  sex : Sex

structure ScanResult where
  bodyFatPercentage : ℝ
  measurements : BodyMeasurements
  confidence : ℝ

/-- The `bodyMeasurements` value built inside `processBodyComposition`: front
landmarks, mock image dimensions 1280x720, plus the profile fields. -/
noncomputable def pipelineMeasurements (frontPhoto : String)
    (userProfile : PipelineProfile) : BodyMeasurements :=
  let frontLandmarks := mockPoseDetection frontPhoto
  let measurements := calculateCircumferences frontLandmarks userProfile.height 1280 720
  { waist := measurements.waist
    neck := measurements.neck
    hip := measurements.hip
    height := userProfile.height
    weight := userProfile.weight
    age := userProfile.age
    sex := userProfile.sex }

/-- `processBodyComposition`.  The pseudo-random
`variation = (Math.random() - 0.5) * 2` is passed in as the explicit `jitter`
parameter (it always lies in `[-1, 1)`); the side photo only feeds the unused
`sideLandmarks`; the final value is `Math.max(5, Math.min(45, bf + jitter))`
with mock confidence `0.85`. -/
noncomputable def processBodyComposition (frontPhoto sidePhoto : String)
    (userProfile : PipelineProfile) (jitter : ℝ) : Except CalcError ScanResult :=
  let _sideLandmarks := mockPoseDetection sidePhoto
  let bodyMeasurements := pipelineMeasurements frontPhoto userProfile
  (calculateBodyFatPercentage bodyMeasurements).map fun bodyFatPercentage =>
    { bodyFatPercentage := max 5 (min 45 (bodyFatPercentage + jitter))
      measurements := bodyMeasurements
      confidence := 0.85 }

/-! ## Definitions following the spec's words (for refinement claims) -/

/-- Spec 4.4: BMR by Mifflin-St Jeor, as worded in the spec. -/
def specBMR (p : UserProfile) : ℚ :=
  match p.sex with
  | .male => 10 * p.weight + 6.25 * p.height - 5 * p.age + 5
  | .female => 10 * p.weight + 6.25 * p.height - 5 * p.age - 161

/-- Spec 4.4: the activity multiplier table. -/
def activityMultiplier : ActivityLevel → ℚ
  | .sedentary => 1.2
  | .light => 1.375
  | .moderate => 1.55
  | .active => 1.725
  | .very_active => 1.9

/-- Spec 4.4: TDEE = BMR x activity multiplier. -/
def specTDEE (p : UserProfile) : ℚ :=
  specBMR p * activityMultiplier p.activityLevel

/-- Spec 4.4 calorie table: TDEE - 500 / TDEE + 300 / TDEE by goal. -/
def specCalories (p : UserProfile) : ℚ :=
  if p.goal = "lose_fat" then specTDEE p - 500
  else if p.goal = "gain_muscle" then specTDEE p + 300
  else specTDEE p

/-- Spec 4.4 protein table: 2.2 / 2.0 / 1.6 times bodyweight by goal. -/
def specProtein (p : UserProfile) : ℚ :=
  if p.goal = "lose_fat" then 2.2 * p.weight
  else if p.goal = "gain_muscle" then 2.0 * p.weight
  else 1.6 * p.weight

/-- Spec 4.4 carbs: 35% / 45% / 40% of daily calories, over 4 kcal per gram. -/
def specCarbs (p : UserProfile) : ℚ :=
  (if p.goal = "lose_fat" then 0.35 * specCalories p
   else if p.goal = "gain_muscle" then 0.45 * specCalories p
   else 0.40 * specCalories p) / 4

/-- Spec 4.4 fat: 25% / 25% / 30% of daily calories, over 9 kcal per gram. -/
def specFat (p : UserProfile) : ℚ :=
  (if p.goal = "lose_fat" then 0.25 * specCalories p
   else if p.goal = "gain_muscle" then 0.25 * specCalories p
   else 0.30 * specCalories p) / 9

/-- Spec 4.4 customization pass (a), as worded: when sets is present reduce
it by 1 with a floor of 2, when rest is present increase it by 30. -/
def specAgeAdjustedExercise (e : Exercise) : Exercise :=
  { e with
    sets := e.sets.map fun s => max 2 (s - 1)
    rest := e.rest.map fun r => r + 30 }

/-- Spec 4.4 customization, in order: pass (a) when age > 50, then pass (b)
truncating each workout to its first 4 exercises when a body-fat percentage
above 25 is present. -/
def specCustomize (p : UserProfile) (plan : WorkoutPlan) : WorkoutPlan :=
  let afterAge :=
    if 50 < p.age then
      { plan with
        workouts := plan.workouts.map fun w =>
          { w with exercises := w.exercises.map specAgeAdjustedExercise } }
    else plan
  match p.bodyFatPercentage with
  | some b =>
      if 25 < b then
        { afterAge with
          workouts := afterAge.workouts.map fun w =>
            { w with exercises := w.exercises.take 4 } }
      else afterAge
  | none => afterAge

/-! ## Frame predicates (claim C10) -/

/-- The fields of an exercise other than `sets` and `rest` are unchanged. -/
def ExerciseFrame (e c : Exercise) : Prop :=
  c.name = e.name ∧ c.reps = e.reps ∧ c.duration = e.duration ∧ c.notes = e.notes

/-- A workout keeps its name, type, duration and instructions, and its
exercise list is an index-aligned prefix of the original one in which only
`sets` and `rest` may differ. -/
def WorkoutFrame (w c : Workout) : Prop :=
  c.name = w.name ∧ c.type = w.type ∧ c.duration = w.duration ∧
  c.instructions = w.instructions ∧
  List.Forall₂ ExerciseFrame (w.exercises.take c.exercises.length) c.exercises

/-! ## Concrete inputs used by witnesses and counterexamples -/

/-- A female measurement whose hip is present with value `0`. -/
def hipZeroMeasurements : BodyMeasurements :=
  { waist := 60, neck := 30, hip := some 0, height := 170, weight := 65,
    age := 30, sex := .female }

/-- A male measurement with `waist - neck = -10 <= 0` (log argument
non-positive). -/
def negLogMeasurements : BodyMeasurements :=
  { waist := 30, neck := 40, hip := none, height := 170, weight := 70,
    age := 30, sex := .male }

/-- An ordinary male measurement. -/
def maleMeasurements : BodyMeasurements :=
  { waist := 85, neck := 38, hip := none, height := 178, weight := 80,
    age := 30, sex := .male }

/-- An ordinary female measurement with a positive hip value. -/
def femaleMeasurements : BodyMeasurements :=
  { waist := 70, neck := 33, hip := some 95, height := 165, weight := 60,
    age := 30, sex := .female }

/-- A female measurement without a hip value. -/
def noHipMeasurements : BodyMeasurements :=
  { waist := 60, neck := 30, hip := none, height := 170, weight := 65,
    age := 30, sex := .female }

/-- A degenerate landmark set whose hip landmarks (and shoulder landmarks)
coincide horizontally, so both raw circumferences are `0`. -/
def degenerateLandmarks : BodyLandmarks :=
  { leftShoulder := ⟨0.5, 0.2⟩
    rightShoulder := ⟨0.5, 0.2⟩
    leftHip := ⟨0.5, 0.5⟩
    rightHip := ⟨0.5, 0.5⟩
    leftKnee := ⟨0.4, 0.7⟩
    rightKnee := ⟨0.6, 0.7⟩
    leftAnkle := ⟨0.4, 0.9⟩
    rightAnkle := ⟨0.6, 0.9⟩
    waist := ⟨0.5, 0.45⟩
    neck := ⟨0.5, 0.15⟩
    hip := none }

/-- The profile of the spec's concrete nutrition test property. -/
def nutritionTestProfile : UserProfile :=
  { height := 170, weight := 70, age := 30, sex := .male,
    goal := "maintain", activityLevel := .moderate }

/-- A lose-fat profile used to instantiate the nutrition refinement. -/
def loseFatProfile : UserProfile :=
  { height := 165, weight := 80, age := 40, sex := .female,
    goal := "lose_fat", activityLevel := .light }

/-- The 55-year-old maintenance profile of the spec's workout test
property. -/
def maintain55Profile : UserProfile :=
  { height := 175, weight := 78, age := 55, sex := .male,
    goal := "maintain", activityLevel := .moderate }

/-- A profile whose goal string is outside the recognized enumeration. -/
def invalidGoalProfile : UserProfile :=
  { height := 170, weight := 70, age := 30, sex := .male,
    goal := "invalid", activityLevel := .moderate }

/-- The profile used to drive the orchestration pipeline in witnesses. -/
def pipelineDemoProfile : PipelineProfile :=
  { height := 170, weight := 70, age := 30, sex := .male }

/-- The successful scan result of the pipeline on the demo male profile with
zero jitter. -/
noncomputable def demoScanResult : ScanResult :=
  (processBodyComposition "front" "side" pipelineDemoProfile 0).toOption.getD
    { bodyFatPercentage := 0
      measurements := maleMeasurements
      confidence := 0 }

/-! ## Theorems -/

/-- Evaluation of `generateNutritionPlan` on a lose-fat goal. -/
theorem generateNutritionPlan_on_loseFat (p : UserProfile) (h : p.goal = "lose_fat") :
    generateNutritionPlan p =
      .ok (assembleNutritionPlan p.goal (calculateTDEE p - 500)
        (p.weight * 2.2, (calculateTDEE p - 500) * 0.35 / 4,
         (calculateTDEE p - 500) * 0.25 / 9)) := by
  simp only [generateNutritionPlan]
  rw [if_pos h]

/-- Evaluation of `generateNutritionPlan` on a gain-muscle goal. -/
theorem generateNutritionPlan_on_gainMuscle (p : UserProfile) (h : p.goal = "gain_muscle") :
    generateNutritionPlan p =
      .ok (assembleNutritionPlan p.goal (calculateTDEE p + 300)
        (p.weight * 2.0, (calculateTDEE p + 300) * 0.45 / 4,
         (calculateTDEE p + 300) * 0.25 / 9)) := by
  simp only [generateNutritionPlan]
  rw [if_neg (by simp [h]), if_pos h]

/-- Evaluation of `generateNutritionPlan` on a maintain goal. -/
theorem generateNutritionPlan_on_maintain (p : UserProfile) (h : p.goal = "maintain") :
    generateNutritionPlan p =
      .ok (assembleNutritionPlan p.goal (calculateTDEE p)
        (p.weight * 1.6, calculateTDEE p * 0.40 / 4,
         calculateTDEE p * 0.30 / 9)) := by
  simp only [generateNutritionPlan]
  rw [if_neg (by simp [h]), if_neg (by simp [h]), if_pos h]


/-- C1 (amended): for every male measurement with waist > neck the calculator
returns the US Navy male formula clamped to [3, 50], and for every female
measurement whose hip is present and nonzero with waist + hip > neck it
returns the female formula clamped to [8, 50]; under those preconditions the
result lies in [3, 50] resp. [8, 50]. -/
theorem calculateBodyFat_formula_and_range :
    (∀ m : BodyMeasurements, m.sex = .male → m.neck < m.waist →
      calculateBodyFatPercentage m = .ok (maleBodyFat m) ∧
      3 ≤ maleBodyFat m ∧ maleBodyFat m ≤ 50) ∧
    (∀ (m : BodyMeasurements) (h : ℝ), m.sex = .female → m.hip = some h →
      h ≠ 0 → m.neck < m.waist + h →
      calculateBodyFatPercentage m = .ok (femaleBodyFat m h) ∧
      8 ≤ femaleBodyFat m h ∧ femaleBodyFat m h ≤ 50) := by
  constructor
  · intro m hs _
    refine ⟨?_, le_max_left _ _, max_le (by norm_num) (min_le_left _ _)⟩
    simp [calculateBodyFatPercentage, hs]
  · intro m h hs hh hne _
    refine ⟨?_, le_max_left _ _, max_le (by norm_num) (min_le_left _ _)⟩
    simp [calculateBodyFatPercentage, hs, hh, hne]

/-- Witness for C1: both branches of the theorem applied at concrete
measurements. -/
theorem calculateBodyFat_formula_and_range_witness :
    (maleMeasurements.sex = .male ∧ maleMeasurements.neck < maleMeasurements.waist ∧
     calculateBodyFatPercentage maleMeasurements = .ok (maleBodyFat maleMeasurements) ∧
     3 ≤ maleBodyFat maleMeasurements ∧ maleBodyFat maleMeasurements ≤ 50) ∧
    (femaleMeasurements.sex = .female ∧ femaleMeasurements.hip = some 95 ∧
     (95 : ℝ) ≠ 0 ∧
     femaleMeasurements.neck < femaleMeasurements.waist + 95 ∧
     calculateBodyFatPercentage femaleMeasurements = .ok (femaleBodyFat femaleMeasurements 95) ∧
     8 ≤ femaleBodyFat femaleMeasurements 95 ∧ femaleBodyFat femaleMeasurements 95 ≤ 50) := by
  have hm := calculateBodyFat_formula_and_range.1 maleMeasurements rfl
    (by norm_num [maleMeasurements])
  have hf := calculateBodyFat_formula_and_range.2 femaleMeasurements 95 rfl rfl
    (by norm_num) (by norm_num [femaleMeasurements])
  exact ⟨⟨rfl, by norm_num [maleMeasurements], hm.1, hm.2.1, hm.2.2⟩,
         ⟨rfl, rfl, by norm_num, by norm_num [femaleMeasurements], hf.1, hf.2.1, hf.2.2⟩⟩

/-- Counterexample to C1 as stated: a female measurement with hip present
(value 0) and waist + hip > neck on which the calculator raises the
missing-hip error instead of returning the formula value, because the
source's guard `if (!hip)` also fires on a present hip of `0`. -/
theorem calculateBodyFat_hipZero_counterexample :
    hipZeroMeasurements.sex = .female ∧
    hipZeroMeasurements.hip = some 0 ∧
    hipZeroMeasurements.neck < hipZeroMeasurements.waist + 0 ∧
    calculateBodyFatPercentage hipZeroMeasurements = .error .missingHip := by
  refine ⟨rfl, rfl, by norm_num [hipZeroMeasurements], ?_⟩
  simp [calculateBodyFatPercentage, hipZeroMeasurements]

/-- C2: at a male measurement with waist - neck = -10 (non-positive logarithm
argument) the calculator does not fail: the source has no InvalidMeasurement
guard at all and goes on to evaluate the formula (in JavaScript,
`Math.log10(-10)` is NaN and the NaN propagates to the return value). -/
theorem calculateBodyFat_no_invalidMeasurement_guard :
    negLogMeasurements.waist - negLogMeasurements.neck ≤ 0 ∧
    calculateBodyFatPercentage negLogMeasurements = .ok (maleBodyFat negLogMeasurements) := by
  refine ⟨by norm_num [negLogMeasurements], ?_⟩
  simp [calculateBodyFatPercentage, negLogMeasurements]

/-- C3: every female measurement without a hip value makes the calculator
fail with the missing-hip error. -/
theorem calculateBodyFat_missingHip (m : BodyMeasurements)
    (hs : m.sex = .female) (hh : m.hip = none) :
    calculateBodyFatPercentage m = .error .missingHip := by
  simp [calculateBodyFatPercentage, hs, hh]

/-- Witness for C3 at a concrete hip-less female measurement. -/
theorem calculateBodyFat_missingHip_witness :
    (noHipMeasurements.sex = .female ∧ noHipMeasurements.hip = none) ∧
    calculateBodyFatPercentage noHipMeasurements = .error .missingHip :=
  ⟨⟨rfl, rfl⟩, calculateBodyFat_missingHip noHipMeasurements rfl rfl⟩

/-- C4: the returned waist is always at least 50 and the returned neck at
least 25, and whenever the raw geometric circumference falls below the floor
the returned value is exactly the floor. -/
theorem circumference_floors (lm : BodyLandmarks)
    (userHeight imageWidth imageHeight : ℝ) :
    50 ≤ (calculateCircumferences lm userHeight imageWidth imageHeight).waist ∧
    25 ≤ (calculateCircumferences lm userHeight imageWidth imageHeight).neck ∧
    (waistCircumference lm userHeight imageWidth imageHeight < 50 →
      (calculateCircumferences lm userHeight imageWidth imageHeight).waist = 50) ∧
    (neckCircumference lm userHeight imageWidth imageHeight < 25 →
      (calculateCircumferences lm userHeight imageWidth imageHeight).neck = 25) := by
  refine ⟨le_max_right _ _, le_max_right _ _, fun h => max_eq_right h.le,
    fun h => max_eq_right h.le⟩

/-- Witness for C4: a degenerate landmark set with zero hip-to-hip and
shoulder-to-shoulder width produces raw circumferences 0, and the returned
values are exactly the floors 50 and 25. -/
theorem circumference_floors_witness :
    (waistCircumference degenerateLandmarks 170 1280 720 < 50 ∧
     (calculateCircumferences degenerateLandmarks 170 1280 720).waist = 50) ∧
    (neckCircumference degenerateLandmarks 170 1280 720 < 25 ∧
     (calculateCircumferences degenerateLandmarks 170 1280 720).neck = 25) := by
  have hw : waistCircumference degenerateLandmarks 170 1280 720 < 50 := by
    norm_num [waistCircumference, degenerateLandmarks]
  have hn : neckCircumference degenerateLandmarks 170 1280 720 < 25 := by
    norm_num [neckCircumference, degenerateLandmarks]
  exact ⟨⟨hw, (circumference_floors _ _ _ _).2.2.1 hw⟩,
         ⟨hn, (circumference_floors _ _ _ _).2.2.2 hn⟩⟩

/-- Counterexample to C6 as stated: on the profile weight 70, height 170,
age 30, male, moderate, maintain, the Mifflin-St Jeor formula evaluates to
1617.5 (the spec's claimed total 1752.5 is an arithmetic slip), so neither
the claimed BMR nor the claimed daily calories 2716 match the code. -/
theorem nutrition_concrete_counterexample :
    calculateBMR nutritionTestProfile ≠ 1752.5 ∧
    calculateTDEE nutritionTestProfile ≠ 2716.375 ∧
    (generateNutritionPlan nutritionTestProfile).map
      (fun n => n.dailyCalories) ≠ .ok 2716 := by
  refine ⟨by norm_num [calculateBMR, nutritionTestProfile],
    by norm_num [calculateTDEE, calculateBMR, nutritionTestProfile], ?_⟩
  intro h
  have h2507 : (generateNutritionPlan nutritionTestProfile).map
      (fun n => n.dailyCalories) = .ok 2507 := by
    rw [generateNutritionPlan_on_maintain nutritionTestProfile rfl]
    norm_num [Except.map, assembleNutritionPlan, calculateTDEE, calculateBMR,
      nutritionTestProfile, round_eq]
  rw [h2507] at h
  simp only [Except.ok.injEq] at h
  omega

/-- C6 (amended): on the profile weight 70, height 170, age 30, male,
moderate, maintain, the BMR is 10*70 + 6.25*170 - 5*30 + 5 = 1617.5, the
TDEE is 1617.5 * 1.55 = 2507.125, the returned daily calories are 2507 and
the returned protein is round(70 * 1.6) = 112 grams. -/
theorem nutrition_concrete_example :
    calculateBMR nutritionTestProfile = 1617.5 ∧
    calculateTDEE nutritionTestProfile = 2507.125 ∧
    (generateNutritionPlan nutritionTestProfile).map
      (fun n => (n.dailyCalories, n.macros.protein)) = .ok (2507, 112) := by
  refine ⟨by norm_num [calculateBMR, nutritionTestProfile],
    by norm_num [calculateTDEE, calculateBMR, nutritionTestProfile], ?_⟩
  rw [generateNutritionPlan_on_maintain nutritionTestProfile rfl]
  norm_num [Except.map, assembleNutritionPlan, calculateTDEE, calculateBMR,
    nutritionTestProfile, round_eq]

/-- C8: any profile whose goal is outside the three recognized strings makes
both generators fail with the invalid-goal error. -/
theorem invalidGoal_errors (p : UserProfile)
    (h1 : p.goal ≠ "lose_fat") (h2 : p.goal ≠ "gain_muscle")
    (h3 : p.goal ≠ "maintain") :
    generateWorkoutPlan p = .error .invalidGoal ∧
    generateNutritionPlan p = .error .invalidGoal := by
  constructor
  · simp [generateWorkoutPlan, getBaseWorkoutPlan, h1, h2, h3, Except.map]
  · simp [generateNutritionPlan, h1, h2, h3]

/-- Witness for C8 at the goal string "invalid". -/
theorem invalidGoal_errors_witness :
    (invalidGoalProfile.goal ≠ "lose_fat" ∧ invalidGoalProfile.goal ≠ "gain_muscle" ∧
     invalidGoalProfile.goal ≠ "maintain") ∧
    generateWorkoutPlan invalidGoalProfile = .error .invalidGoal ∧
    generateNutritionPlan invalidGoalProfile = .error .invalidGoal := by
  have h := invalidGoal_errors invalidGoalProfile (by decide) (by decide) (by decide)
  exact ⟨⟨by decide, by decide, by decide⟩, h⟩

/-- The code's TDEE agrees with the spec-side TDEE definition. -/
theorem calculateTDEE_eq_specTDEE (p : UserProfile) : calculateTDEE p = specTDEE p := by
  rcases p with ⟨h, w, a, s, g, al, bf⟩
  cases s <;> cases al <;> rfl

/-- C5: for every profile with a recognized goal, the generated nutrition
plan's daily calories and macros are exactly the spec's table: calories
TDEE-500 / TDEE+300 / TDEE, protein 2.2 / 2.0 / 1.6 per kg, carbs
35% / 45% / 40% over 4, fat 25% / 25% / 30% over 9, each rounded to the
nearest integer, with BMR by Mifflin-St Jeor and the five activity
multipliers. -/
theorem nutrition_follows_spec (p : UserProfile)
    (h : p.goal = "lose_fat" ∨ p.goal = "gain_muscle" ∨ p.goal = "maintain") :
    (generateNutritionPlan p).map
      (fun n => (n.dailyCalories, n.macros.protein, n.macros.carbs, n.macros.fat)) =
      .ok (round (specCalories p), round (specProtein p),
           round (specCarbs p), round (specFat p)) := by
  rcases h with h | h | h
  · rw [generateNutritionPlan_on_loseFat p h]
    simp only [Except.map, Except.ok.injEq, Prod.mk.injEq, assembleNutritionPlan]
    refine ⟨?_, ?_, ?_, ?_⟩ <;>
      simp [specCalories, specProtein, specCarbs, specFat, h, calculateTDEE_eq_specTDEE]
    all_goals congr 1
    all_goals ring
  · rw [generateNutritionPlan_on_gainMuscle p h]
    simp only [Except.map, Except.ok.injEq, Prod.mk.injEq, assembleNutritionPlan]
    refine ⟨?_, ?_, ?_, ?_⟩ <;>
      simp [specCalories, specProtein, specCarbs, specFat, h, calculateTDEE_eq_specTDEE]
    all_goals congr 1
    all_goals ring
  · rw [generateNutritionPlan_on_maintain p h]
    simp only [Except.map, Except.ok.injEq, Prod.mk.injEq, assembleNutritionPlan]
    refine ⟨?_, ?_, ?_, ?_⟩ <;>
      simp [specCalories, specProtein, specCarbs, specFat, h, calculateTDEE_eq_specTDEE]
    all_goals congr 1
    all_goals ring

/-- Witness for C5 applied at a concrete lose-fat profile. -/
theorem nutrition_follows_spec_witness :
    (loseFatProfile.goal = "lose_fat" ∨ loseFatProfile.goal = "gain_muscle" ∨
     loseFatProfile.goal = "maintain") ∧
    (generateNutritionPlan loseFatProfile).map
      (fun n => (n.dailyCalories, n.macros.protein, n.macros.carbs, n.macros.fat)) =
      .ok (round (specCalories loseFatProfile), round (specProtein loseFatProfile),
           round (specCarbs loseFatProfile), round (specFat loseFatProfile)) :=
  ⟨Or.inl rfl, nutrition_follows_spec loseFatProfile (Or.inl rfl)⟩

/-- C9: whenever the orchestration succeeds and the jitter is at most 1 in
absolute value, the returned body-fat percentage is the calculated value
plus the jitter clamped to [5, 45], and in particular lies in [5, 45]. -/
theorem processBodyComposition_clamped (front sidePhoto : String)
    (p : PipelineProfile) (jitter : ℝ) (hj : |jitter| ≤ 1) (r : ScanResult)
    (hr : processBodyComposition front sidePhoto p jitter = .ok r) :
    (5 ≤ r.bodyFatPercentage ∧ r.bodyFatPercentage ≤ 45) ∧
    ∃ bf, calculateBodyFatPercentage (pipelineMeasurements front p) = .ok bf ∧
      r.bodyFatPercentage = max 5 (min 45 (bf + jitter)) := by
  simp only [processBodyComposition] at hr
  cases hcalc : calculateBodyFatPercentage (pipelineMeasurements front p) with
  | error e => rw [hcalc] at hr; simp [Except.map] at hr
  | ok bf =>
      rw [hcalc] at hr
      simp only [Except.map, Except.ok.injEq] at hr
      refine ⟨?_, bf, rfl, ?_⟩
      · rw [← hr]
        exact ⟨le_max_left _ _, max_le (by norm_num) (min_le_left _ _)⟩
      · rw [← hr]

/-- Witness for C9: the pipeline on a concrete male profile with zero jitter
succeeds with a body-fat percentage inside [5, 45]. -/
theorem processBodyComposition_clamped_witness :
    |(0 : ℝ)| ≤ 1 ∧
    processBodyComposition "front" "side" pipelineDemoProfile 0 = .ok demoScanResult ∧
    5 ≤ demoScanResult.bodyFatPercentage ∧ demoScanResult.bodyFatPercentage ≤ 45 := by
  have hr : processBodyComposition "front" "side" pipelineDemoProfile 0 =
      .ok demoScanResult := rfl
  have h := processBodyComposition_clamped "front" "side" pipelineDemoProfile 0
    (by norm_num) demoScanResult hr
  exact ⟨by norm_num, hr, h.1.1, h.1.2⟩

/-- On the three base templates (whose sets and rest values are never 0) the
source's truthiness-guarded age adjustment agrees with the spec's wording. -/
theorem ageMap_eq_specAgeMap (T : WorkoutPlan)
    (hT : T = fatLossPlan ∨ T = muscleGainPlan ∨ T = maintenancePlan) :
    (T.workouts.map fun w => { w with exercises := w.exercises.map ageAdjustedExercise }) =
      (T.workouts.map fun w => { w with exercises := w.exercises.map specAgeAdjustedExercise }) := by
  rcases hT with rfl | rfl | rfl <;>
    norm_num [fatLossPlan, muscleGainPlan, maintenancePlan,
      ageAdjustedExercise, specAgeAdjustedExercise]

/-- On the three base templates the source customization equals the one the
spec describes. -/
theorem customize_eq_specCustomize (p : UserProfile) (T : WorkoutPlan)
    (hT : T = fatLossPlan ∨ T = muscleGainPlan ∨ T = maintenancePlan) :
    customizeWorkoutPlan T p = specCustomize p T := by
  have hmap := ageMap_eq_specAgeMap T hT
  rcases hbf : p.bodyFatPercentage with _ | b
  · by_cases h50 : 50 < p.age
    · simp only [customizeWorkoutPlan, specCustomize, hbf, if_pos h50, hmap]
    · simp only [customizeWorkoutPlan, specCustomize, hbf, if_neg h50]
  · by_cases h50 : 50 < p.age
    · by_cases h25 : 25 < b
      · simp only [customizeWorkoutPlan, specCustomize, hbf, if_pos h50, if_pos h25, hmap]
      · simp only [customizeWorkoutPlan, specCustomize, hbf, if_pos h50, if_neg h25, hmap]
    · by_cases h25 : 25 < b
      · simp only [customizeWorkoutPlan, specCustomize, hbf, if_neg h50, if_pos h25]
      · simp only [customizeWorkoutPlan, specCustomize, hbf, if_neg h50, if_neg h25]

/-- C7: the workout generator is exactly the goal-keyed base template put
through the spec's customization pass in order (age pass: sets - 1 with
floor 2 and rest + 30 when present; then body-fat pass: truncate each
workout to 4 exercises when a body-fat percentage above 25 is present); in
particular at age 55 with goal maintain every sets value of the maintain
template drops by exactly 1 (floor 2) and every defined rest grows by 30. -/
theorem workout_customization_follows_spec :
    (∀ p : UserProfile, generateWorkoutPlan p =
      (getBaseWorkoutPlan p.goal).map (specCustomize p)) ∧
    generateWorkoutPlan maintain55Profile =
      .ok { maintenancePlan with
            workouts := maintenancePlan.workouts.map fun w =>
              { w with exercises := w.exercises.map specAgeAdjustedExercise } } := by
  have hmain : ∀ p : UserProfile, generateWorkoutPlan p =
      (getBaseWorkoutPlan p.goal).map (specCustomize p) := by
    intro p
    unfold generateWorkoutPlan getBaseWorkoutPlan
    by_cases h1 : p.goal = "lose_fat"
    · rw [if_pos h1]
      simp only [Except.map]
      exact congrArg Except.ok (customize_eq_specCustomize p _ (Or.inl rfl))
    · rw [if_neg h1]
      by_cases h2 : p.goal = "gain_muscle"
      · rw [if_pos h2]
        simp only [Except.map]
        exact congrArg Except.ok (customize_eq_specCustomize p _ (Or.inr (Or.inl rfl)))
      · rw [if_neg h2]
        by_cases h3 : p.goal = "maintain"
        · rw [if_pos h3]
          simp only [Except.map]
          exact congrArg Except.ok (customize_eq_specCustomize p _ (Or.inr (Or.inr rfl)))
        · rw [if_neg h3]
          rfl
  refine ⟨hmain, ?_⟩
  rw [hmain maintain55Profile]
  have hbase : getBaseWorkoutPlan maintain55Profile.goal = .ok maintenancePlan := by
    simp [getBaseWorkoutPlan, maintain55Profile]
  rw [hbase]
  simp only [Except.map, Except.ok.injEq]
  have h50 : (50 : ℚ) < maintain55Profile.age := by norm_num [maintain55Profile]
  have hbf : maintain55Profile.bodyFatPercentage = none := rfl
  simp only [specCustomize, hbf, if_pos h50]

/-- A list is frame-related to its image under a pointwise frame-preserving
map. -/
theorem forall₂_self_map {α : Type u} (R : α → α → Prop) (f : α → α)
    (hf : ∀ a, R a (f a)) : ∀ l : List α, List.Forall₂ R l (l.map f)
  | [] => List.Forall₂.nil
  | a :: l => List.Forall₂.cons (hf a) (forall₂_self_map R f hf l)

/-- The prefix of a list matching the length of a truncated pointwise image
is frame-related to that truncated image. -/
theorem forall₂_take_map {α : Type u} (R : α → α → Prop) (f : α → α)
    (hf : ∀ a, R a (f a)) :
    ∀ (l : List α) (n : ℕ),
      List.Forall₂ R (l.take ((l.map f).take n).length) ((l.map f).take n)
  | [], _ => by simp
  | _ :: _, 0 => by simp
  | a :: l, n + 1 => by
      simpa using List.Forall₂.cons (hf a) (forall₂_take_map R f hf l n)

/-- Every exercise is exercise-frame-related to itself. -/
theorem exerciseFrame_refl (e : Exercise) : ExerciseFrame e e := ⟨rfl, rfl, rfl, rfl⟩

/-- The age adjustment touches only `sets` and `rest`. -/
theorem exerciseFrame_ageAdjusted (e : Exercise) :
    ExerciseFrame e (ageAdjustedExercise e) := ⟨rfl, rfl, rfl, rfl⟩

/-- Every workout is workout-frame-related to itself. -/
theorem workoutFrame_refl (w : Workout) : WorkoutFrame w w := by
  refine ⟨rfl, rfl, rfl, rfl, ?_⟩
  rw [List.take_length]
  exact List.forall₂_same.mpr fun e _ => exerciseFrame_refl e

/-- The age pass preserves the workout frame. -/
theorem workoutFrame_ageMap (w : Workout) :
    WorkoutFrame w { w with exercises := w.exercises.map ageAdjustedExercise } := by
  refine ⟨rfl, rfl, rfl, rfl, ?_⟩
  show List.Forall₂ ExerciseFrame
    (w.exercises.take (w.exercises.map ageAdjustedExercise).length)
    (w.exercises.map ageAdjustedExercise)
  rw [List.length_map, List.take_length]
  exact forall₂_self_map _ _ exerciseFrame_ageAdjusted _

/-- Truncation to 4 exercises preserves the workout frame. -/
theorem workoutFrame_trunc (w : Workout) :
    WorkoutFrame w { w with exercises := w.exercises.take 4 } := by
  refine ⟨rfl, rfl, rfl, rfl, ?_⟩
  show List.Forall₂ ExerciseFrame
    (w.exercises.take (w.exercises.take 4).length) (w.exercises.take 4)
  have h := forall₂_take_map ExerciseFrame id (fun e => exerciseFrame_refl e) w.exercises 4
  simpa [List.map_id] using h

/-- The age pass followed by truncation preserves the workout frame. -/
theorem workoutFrame_ageMap_trunc (w : Workout) :
    WorkoutFrame w
      { w with exercises := (w.exercises.map ageAdjustedExercise).take 4 } := by
  refine ⟨rfl, rfl, rfl, rfl, ?_⟩
  show List.Forall₂ ExerciseFrame
    (w.exercises.take ((w.exercises.map ageAdjustedExercise).take 4).length)
    ((w.exercises.map ageAdjustedExercise).take 4)
  exact forall₂_take_map ExerciseFrame ageAdjustedExercise exerciseFrame_ageAdjusted
    w.exercises 4

/-- C10: the customization changes only exercises: the plan's title,
description, duration and rest days and every workout's name, type, duration
and instructions are unchanged, and each surviving exercise differs from its
template counterpart at most in `sets` and `rest`. -/
theorem customize_frame (plan : WorkoutPlan) (p : UserProfile) :
    (customizeWorkoutPlan plan p).title = plan.title ∧
    (customizeWorkoutPlan plan p).description = plan.description ∧
    (customizeWorkoutPlan plan p).duration = plan.duration ∧
    (customizeWorkoutPlan plan p).restDays = plan.restDays ∧
    List.Forall₂ WorkoutFrame plan.workouts (customizeWorkoutPlan plan p).workouts := by
  rcases hbf : p.bodyFatPercentage with _ | b
  · by_cases h50 : 50 < p.age
    · simp only [customizeWorkoutPlan, hbf, if_pos h50]
      exact ⟨trivial, trivial, trivial, trivial, forall₂_self_map _ _ workoutFrame_ageMap _⟩
    · simp only [customizeWorkoutPlan, hbf, if_neg h50]
      exact ⟨trivial, trivial, trivial, trivial, List.forall₂_same.mpr fun w _ => workoutFrame_refl w⟩
  · by_cases h50 : 50 < p.age
    · by_cases h25 : 25 < b
      · simp only [customizeWorkoutPlan, hbf, if_pos h50, if_pos h25, List.map_map]
        exact ⟨trivial, trivial, trivial, trivial, forall₂_self_map _ _ (fun w => workoutFrame_ageMap_trunc w) _⟩
      · simp only [customizeWorkoutPlan, hbf, if_pos h50, if_neg h25]
        exact ⟨trivial, trivial, trivial, trivial, forall₂_self_map _ _ workoutFrame_ageMap _⟩
    · by_cases h25 : 25 < b
      · simp only [customizeWorkoutPlan, hbf, if_neg h50, if_pos h25]
        exact ⟨trivial, trivial, trivial, trivial, forall₂_self_map _ _ workoutFrame_trunc _⟩
      · simp only [customizeWorkoutPlan, hbf, if_neg h50, if_neg h25]
        exact ⟨trivial, trivial, trivial, trivial, List.forall₂_same.mpr fun w _ => workoutFrame_refl w⟩
